import Mathlib

/-!
Shallow embedding of the device-code authentication flow of `mstodo`
(`src/mstodo_lib/auth.rs`, `src/mstodo_lib/error.rs`).

The embedding models:
- the JSON values the provider may return (`Json`) and the serde-derived
  decoders of the response structs declared in `auth.rs`;
- the form serialization produced by `reqwest .form(...)` /
  `serde_urlencoded` for the two request structs;
- the error enum `AuthenticationError` of `error.rs`, with the `String`
  payloads the Rust code builds represented symbolically (`ErrorPayload`):
  the raw response text (`.text()`) versus the `to_string()` of a failed
  body decode are distinct strings in the Rust code, and are kept distinct
  constructors here, without committing to reqwest's exact message format;
- `authenticate_with_device_code` itself, as a function of a transcript of
  HTTP exchanges (`Step`): one for the device-code request and one per
  token poll.  The function returns the trace the flow produces: the form
  body of every poll request sent, every sleep performed (in seconds), and
  the final result.  `FlowResult.outOfEvents` marks a transcript that ends
  while the loop would still poll again (the Rust loop has no exit of its
  own in that situation).
-/

namespace Mstodo

/-- JSON values, as far as the serde decoders in `auth.rs` consume them:
strings, non-negative integers (`u64`), arrays, objects, `null`. -/
inductive Json where
  | str (s : String)
  | num (n : Nat)
  | arr (elems : List Json)
  | obj (fields : List (String × Json))
  | null

/-- Field lookup in a JSON object (serde matches struct fields by name,
in any order, ignoring unknown fields). -/
def Json.getField : Json → String → Option Json
  | .obj fields, key => fields.lookup key
  | _, _ => none

/-- serde `String`: accepts exactly a JSON string. -/
def Json.asString : Json → Option String
  | .str s => some s
  | _ => none

/-- serde `u64`: accepts exactly a JSON non-negative integer. -/
def Json.asNat : Json → Option Nat
  | .num n => some n
  | _ => none

/-- serde `Vec<u64>`: accepts exactly a JSON array of non-negative integers. -/
def Json.asNatList : Json → Option (List Nat)
  | .arr elems => elems.mapM Json.asNat
  | _ => none

/-- serde `Option<String>` for a field: absent or `null` gives `None`,
a string gives `Some`, anything else fails. -/
def Json.asOptString : Option Json → Option (Option String)
  | none => some none
  | some .null => some none
  | some (.str s) => some (some s)
  | some _ => none

/-- `CLIENT_ID` constant of `auth.rs`. -/
def CLIENT_ID : String := "c85cbdd1-4823-4bc8-b02e-2f3f7caa9dd7"

/-- `API_SCOPE` constant of `auth.rs`. -/
def API_SCOPE : String := "offline_access User.Read Tasks.ReadWrite"

/-- The fixed grant type string of `requests::AuthenticationRequest::from`. -/
def grantTypeDeviceCode : String := "urn:ietf:params:oauth:grant-type:device_code"

/-- `requests::DeviceCodeAuthenticationRequest` of `auth.rs`. -/
structure DeviceCodeAuthenticationRequest where
  client_id : String
  scope : String
deriving DecidableEq

/-- `requests::AuthenticationRequest` of `auth.rs`; the `device_code`
field is serialized under the name `code` (`#[serde(rename = "code")]`). -/
structure AuthenticationRequest where
  client_id : String
  device_code : String
  grant_type : String
deriving DecidableEq

/-- `responses::DeviceCodeAuthenticationResponse` of `auth.rs`
(the spec's `DeviceCodeChallenge`). -/
structure DeviceCodeAuthenticationResponse where
  device_code : String
  user_code : String
  verification_uri : String
  expires_in : Nat
  interval : Nat
  message : String
deriving DecidableEq

/-- `responses::AuthorizationError` of `auth.rs`: the four provider error
codes the code knows, deserialized from their snake_case strings. -/
inductive AuthorizationError where
  | authorizationPending
  | authorizationDeclined
  | badVerificationCode
  | expiredToken
deriving DecidableEq

/-- `responses::DeviceCodeAhenticationError` of `auth.rs` (name kept,
typo included): the provider's error envelope on a failed token poll. -/
structure DeviceCodeAhenticationError where
  error : AuthorizationError
  error_description : String
  error_codes : List Nat
  timestamp : String
  trace_id : String
  correlation_id : String
deriving DecidableEq

/-- `responses::AuthenticationResponse` of `auth.rs`
(the spec's `TokenRecord`). -/
structure AuthenticationResponse where
  token_type : String
  scope : String
  expires_in : Nat
  ext_expires_in : Nat
  access_token : String
  refresh_token : String
  id_token : Option String
deriving DecidableEq

/-- Deserialization of `AuthorizationError` per
`#[serde(rename_all = "snake_case")]`: exactly the four strings. -/
def parseAuthorizationError : Json → Option AuthorizationError
  | .str "authorization_pending" => some .authorizationPending
  | .str "authorization_declined" => some .authorizationDeclined
  | .str "bad_verification_code" => some .badVerificationCode
  | .str "expired_token" => some .expiredToken
  | _ => none

/-- serde-derived decoder of `DeviceCodeAuthenticationResponse`:
all six fields are mandatory. -/
def parseDeviceCodeAuthenticationResponse (j : Json) :
    Option DeviceCodeAuthenticationResponse :=
  match (j.getField "device_code").bind Json.asString,
      (j.getField "user_code").bind Json.asString,
      (j.getField "verification_uri").bind Json.asString,
      (j.getField "expires_in").bind Json.asNat,
      (j.getField "interval").bind Json.asNat,
      (j.getField "message").bind Json.asString with
  | some dc, some uc, some vu, some ei, some iv, some ms =>
      some ⟨dc, uc, vu, ei, iv, ms⟩
  | _, _, _, _, _, _ => none

/-- serde-derived decoder of `DeviceCodeAhenticationError`: the `error`
code and all five metadata fields are mandatory. -/
def parseDeviceCodeAhenticationError (j : Json) :
    Option DeviceCodeAhenticationError :=
  match (j.getField "error").bind parseAuthorizationError,
      (j.getField "error_description").bind Json.asString,
      (j.getField "error_codes").bind Json.asNatList,
      (j.getField "timestamp").bind Json.asString,
      (j.getField "trace_id").bind Json.asString,
      (j.getField "correlation_id").bind Json.asString with
  | some e, some d, some c, some ts, some tr, some co =>
      some ⟨e, d, c, ts, tr, co⟩
  | _, _, _, _, _, _ => none

/-- serde-derived decoder of `AuthenticationResponse`: six mandatory
fields; `id_token : Option<String>` may be absent or `null`. -/
def parseAuthenticationResponse (j : Json) : Option AuthenticationResponse :=
  match (j.getField "token_type").bind Json.asString,
      (j.getField "scope").bind Json.asString,
      (j.getField "expires_in").bind Json.asNat,
      (j.getField "ext_expires_in").bind Json.asNat,
      (j.getField "access_token").bind Json.asString,
      (j.getField "refresh_token").bind Json.asString,
      Json.asOptString (j.getField "id_token") with
  | some tt, some sc, some ei, some xe, some ac, some rt, some it =>
      some ⟨tt, sc, ei, xe, ac, rt, it⟩
  | _, _, _, _, _, _, _ => none

/-- `AuthenticationRequest::from(&DeviceCodeAuthenticationResponse)`. -/
def AuthenticationRequest.ofChallenge
    (resp : DeviceCodeAuthenticationResponse) : AuthenticationRequest :=
  ⟨CLIENT_ID, resp.device_code, grantTypeDeviceCode⟩

/-- The name/value pairs serde_urlencoded produces for
`AuthenticationRequest` (declaration order; `device_code` renamed `code`). -/
def AuthenticationRequest.formPairs (r : AuthenticationRequest) :
    List (String × String) :=
  [("client_id", r.client_id), ("code", r.device_code),
    ("grant_type", r.grant_type)]

/-- The name/value pairs serde_urlencoded produces for
`DeviceCodeAuthenticationRequest` (declaration order). -/
def DeviceCodeAuthenticationRequest.formPairs
    (r : DeviceCodeAuthenticationRequest) : List (String × String) :=
  [("client_id", r.client_id), ("scope", r.scope)]

/-- UTF-8 bytes of a character (code-point encoding). -/
def charUtf8Bytes (c : Char) : List Nat :=
  let n := c.toNat
  if n < 0x80 then [n]
  else if n < 0x800 then
    [0xC0 ||| (n >>> 6), 0x80 ||| (n &&& 0x3F)]
  else if n < 0x10000 then
    [0xE0 ||| (n >>> 12), 0x80 ||| ((n >>> 6) &&& 0x3F), 0x80 ||| (n &&& 0x3F)]
  else
    [0xF0 ||| (n >>> 18), 0x80 ||| ((n >>> 12) &&& 0x3F),
      0x80 ||| ((n >>> 6) &&& 0x3F), 0x80 ||| (n &&& 0x3F)]

/-- Bytes kept literal by `application/x-www-form-urlencoded` encoding
(the `url` crate's form serializer): ASCII alphanumerics and `*-._`. -/
def isFormSafeByte (b : Nat) : Bool :=
  (0x30 ≤ b && b ≤ 0x39) || (0x41 ≤ b && b ≤ 0x5A) ||
    (0x61 ≤ b && b ≤ 0x7A) || b == 0x2A || b == 0x2D || b == 0x2E || b == 0x5F

/-- Uppercase hexadecimal digit. -/
def hexDigit (n : Nat) : Char :=
  if n < 10 then Char.ofNat (48 + n) else Char.ofNat (55 + n)

/-- Form encoding of one byte: space becomes `+`, safe bytes stay literal,
everything else is percent-encoded. -/
def formEncodeByte (b : Nat) : String :=
  if b == 0x20 then "+"
  else if isFormSafeByte b then String.mk [Char.ofNat b]
  else String.mk ['%', hexDigit (b / 16), hexDigit (b % 16)]

/-- Form encoding of a string: encode each UTF-8 byte. -/
def formEncodeValue (s : String) : String :=
  String.join ((s.data.flatMap charUtf8Bytes).map formEncodeByte)

/-- `application/x-www-form-urlencoded` body for a list of pairs:
`k1=v1&k2=v2&...` with keys and values encoded. -/
def formEncodeBody (pairs : List (String × String)) : String :=
  String.intercalate "&"
    (pairs.map (fun p => formEncodeValue p.1 ++ "=" ++ formEncodeValue p.2))

/-- A `reqwest::Error`, as far as `auth.rs` can produce one: a transport
failure of `send()`, or a failed `.json::<T>()` decode of a body whose raw
text was `raw`. -/
inductive ReqwestError where
  | transport (msg : String)
  | decode (raw : String)
deriving DecidableEq

/-- A `String` payload built by `auth.rs`, kept symbolic: either the raw
response text (`resp.text()`), or the `to_string()` of the `reqwest::Error`
from a failed decode of a body whose raw text was `raw`.  These are
distinct strings in the running program. -/
inductive ErrorPayload where
  | rawText (s : String)
  | decodeErrorOf (raw : String)
deriving DecidableEq

/-- `error::AuthenticationError` of `error.rs`. -/
inductive AuthenticationError where
  | NetworkError (cause : ReqwestError)
  | AuthenticationFailed
  | UnexpectedResponse (body : ErrorPayload)
deriving DecidableEq

/-- One HTTP exchange as seen by the flow: either `send()` failed
(`err`), or a response arrived with a status code, its raw body text, and
the JSON parse of that body (`none` when the body is not valid JSON). -/
inductive Step where
  | ok (status : Nat) (raw : String) (parsed : Option Json)
  | err (msg : String)

/-- `reqwest::StatusCode::is_success`: 2xx. -/
def isSuccessStatus (status : Nat) : Bool :=
  decide (200 ≤ status ∧ status < 300)

instance {ε α : Type} [DecidableEq ε] [DecidableEq α] :
    DecidableEq (Except ε α) := fun a b =>
  match a, b with
  | .ok x, .ok y =>
      if h : x = y then .isTrue (congrArg Except.ok h)
      else .isFalse (fun hc => h (Except.ok.inj hc))
  | .error x, .error y =>
      if h : x = y then .isTrue (congrArg Except.error h)
      else .isFalse (fun hc => h (Except.error.inj hc))
  | .ok _, .error _ => .isFalse (fun hc => Except.noConfusion hc)
  | .error _, .ok _ => .isFalse (fun hc => Except.noConfusion hc)

/-- Final result of the flow on a transcript: `done r` when the Rust
function returns `r`; `outOfEvents` when the transcript ran out while the
loop would still poll again. -/
inductive FlowResult where
  | done (r : Except AuthenticationError AuthenticationResponse)
  | outOfEvents
deriving DecidableEq

/-- Observable trace of the polling phase: the form body of every token
poll request sent, in order; every sleep performed, in seconds, in order;
and the final result. -/
structure PollTrace where
  requests : List (List (String × String))
  sleeps : List Nat
  result : FlowResult
deriving DecidableEq

/-- The `loop` of `authenticate_with_device_code`, over a transcript of
poll exchanges.  Mirrors the Rust control flow: transport error
propagates via `?` as `NetworkError`; a 2xx response is decoded as
`AuthenticationResponse` (decode failure propagates via `?` as
`NetworkError`); otherwise the body is decoded as the error envelope
(decode failure is mapped to `UnexpectedResponse(e.to_string())`); a
non-`AuthorizationPending` envelope breaks with `AuthenticationFailed`;
`AuthorizationPending` sleeps `interval` seconds and loops. -/
def pollLoop (req : List (String × String)) (interval : Nat) :
    List Step → PollTrace
  | [] => ⟨[], [], .outOfEvents⟩
  | s :: rest =>
    match s with
    | .err m => ⟨[req], [], .done (.error (.NetworkError (.transport m)))⟩
    | .ok status raw parsed =>
      if isSuccessStatus status then
        match parsed.bind parseAuthenticationResponse with
        | some tok => ⟨[req], [], .done (.ok tok)⟩
        | none => ⟨[req], [], .done (.error (.NetworkError (.decode raw)))⟩
      else
        match parsed.bind parseDeviceCodeAhenticationError with
        | none =>
            ⟨[req], [], .done (.error (.UnexpectedResponse (.decodeErrorOf raw)))⟩
        | some env =>
          if env.error = .authorizationPending then
            let t := pollLoop req interval rest
            ⟨req :: t.requests, interval :: t.sleeps, t.result⟩
          else
            ⟨[req], [], .done (.error .AuthenticationFailed)⟩

/-- `DeviceCodeAuthentication::authenticate_with_device_code`, as a
function of the device-code exchange and the transcript of poll
exchanges.  Mirrors the Rust control flow: transport failure propagates
as `NetworkError`; a non-2xx device-code response returns
`UnexpectedResponse(raw text)`; a 2xx body that fails to decode as
`DeviceCodeAuthenticationResponse` propagates via `?` as `NetworkError`;
otherwise the poll request is built once from the challenge and the loop
runs with the challenge's `interval`. -/
def authenticate_with_device_code (dc : Step) (polls : List Step) : PollTrace :=
  match dc with
  | .err m => ⟨[], [], .done (.error (.NetworkError (.transport m)))⟩
  | .ok status raw parsed =>
    if isSuccessStatus status then
      match parsed.bind parseDeviceCodeAuthenticationResponse with
      | some resp =>
          pollLoop (AuthenticationRequest.ofChallenge resp).formPairs
            resp.interval polls
      | none => ⟨[], [], .done (.error (.NetworkError (.decode raw)))⟩
    else
      ⟨[], [], .done (.error (.UnexpectedResponse (.rawText raw)))⟩

/-- The challenge a device-code exchange yields, when it yields one:
2xx status and a body decoding as `DeviceCodeAuthenticationResponse`. -/
def Step.challengeOf : Step → Option DeviceCodeAuthenticationResponse
  | .err _ => none
  | .ok status _ parsed =>
    if isSuccessStatus status
    then parsed.bind parseDeviceCodeAuthenticationResponse
    else none

/-- Whether a poll exchange is classified `Pending` by the loop: non-2xx
status, error envelope decodes, code `authorization_pending`. -/
def Step.pending : Step → Bool
  | .err _ => false
  | .ok status _ parsed =>
    if isSuccessStatus status then false
    else
      match parsed.bind parseDeviceCodeAhenticationError with
      | some env => decide (env.error = .authorizationPending)
      | none => false

/-- The token a poll exchange yields, when it yields one: 2xx status and
a body decoding as `AuthenticationResponse`. -/
def Step.successToken : Step → Option AuthenticationResponse
  | .err _ => none
  | .ok status _ parsed =>
    if isSuccessStatus status
    then parsed.bind parseAuthenticationResponse
    else none

/-- A well-formed challenge JSON document carrying the given values. -/
def challengeJson (c : DeviceCodeAuthenticationResponse) : Json :=
  .obj [("device_code", .str c.device_code),
    ("user_code", .str c.user_code),
    ("verification_uri", .str c.verification_uri),
    ("expires_in", .num c.expires_in),
    ("interval", .num c.interval),
    ("message", .str c.message)]

/-- Concrete challenge fixture: `interval = 1`, `expires_in = 1`. -/
def challengeC : DeviceCodeAuthenticationResponse :=
  ⟨"devcode-1", "USER1", "https://aka.ms/devicelogin", 1, 1, "sign in"⟩

/-- Concrete device-code exchange producing `challengeC`. -/
def dcStepC : Step := .ok 200 "rawchallenge" (some (challengeJson challengeC))

/-- Concrete `authorization_pending` error body (complete envelope). -/
def pendingBodyC : Json :=
  .obj [("error", .str "authorization_pending"),
    ("error_description", .str "pending"),
    ("error_codes", .arr [.num 70016]),
    ("timestamp", .str "ts"), ("trace_id", .str "tr0"),
    ("correlation_id", .str "co0")]

/-- Concrete pending poll exchange. -/
def pendingStepC : Step := .ok 400 "rawpending" (some pendingBodyC)

/-- Concrete token record fixture. -/
def tokenC : AuthenticationResponse :=
  ⟨"Bearer", "User.Read", 3599, 3599, "acc-token", "ref-token", none⟩

/-- Concrete token body matching `tokenC` (no `id_token`). -/
def tokenBodyC : Json :=
  .obj [("token_type", .str "Bearer"), ("scope", .str "User.Read"),
    ("expires_in", .num 3599), ("ext_expires_in", .num 3599),
    ("access_token", .str "acc-token"), ("refresh_token", .str "ref-token")]

/-- Concrete successful poll exchange. -/
def successStepC : Step := .ok 200 "rawtoken" (some tokenBodyC)

/-- Concrete `authorization_declined` error body (complete envelope). -/
def declinedBodyC : Json :=
  .obj [("error", .str "authorization_declined"),
    ("error_description", .str "declined"),
    ("error_codes", .arr [.num 70020]),
    ("timestamp", .str "ts"), ("trace_id", .str "tr1"),
    ("correlation_id", .str "co1")]

/-- Concrete declined poll exchange. -/
def declinedStepC : Step := .ok 400 "rawdeclined" (some declinedBodyC)

/-- Concrete `expired_token` error body (complete envelope). -/
def expiredBodyC : Json :=
  .obj [("error", .str "expired_token"),
    ("error_description", .str "expired"),
    ("error_codes", .arr [.num 70019]),
    ("timestamp", .str "ts"), ("trace_id", .str "tr2"),
    ("correlation_id", .str "co2")]

/-- Concrete expired poll exchange. -/
def expiredStepC : Step := .ok 400 "rawexpired" (some expiredBodyC)

/-- Concrete error body whose `error` code (`slow_down`) is not one of
the four known codes; all metadata fields present. -/
def slowDownBodyC : Json :=
  .obj [("error", .str "slow_down"),
    ("error_description", .str "slow down"),
    ("error_codes", .arr [.num 70021]),
    ("timestamp", .str "ts"), ("trace_id", .str "tr3"),
    ("correlation_id", .str "co3")]

/-- Concrete unknown-code poll exchange. -/
def slowDownStepC : Step := .ok 400 "rawslowdown" (some slowDownBodyC)

/-- Concrete 2xx token body lacking `refresh_token`. -/
def noRefreshBodyC : Json :=
  .obj [("token_type", .str "Bearer"), ("scope", .str "User.Read"),
    ("expires_in", .num 3599), ("ext_expires_in", .num 3599),
    ("access_token", .str "acc-token")]

/-- Concrete 2xx poll exchange whose body lacks `refresh_token`. -/
def noRefreshStepC : Step := .ok 200 "rawnorefresh" (some noRefreshBodyC)

/-- Concrete error body with a known `error` code but no metadata. -/
def pendingNoMetaBodyC : Json := .obj [("error", .str "authorization_pending")]

/-- Concrete non-2xx poll exchange with `authorization_pending` but a
bare envelope. -/
def pendingNoMetaStepC : Step := .ok 400 "rawbare" (some pendingNoMetaBodyC)

end Mstodo

namespace Mstodo

theorem pollLoop_transport (req : List (String × String)) (I : Nat)
    (m : String) (rest : List Step) :
    pollLoop req I (.err m :: rest) =
      ⟨[req], [], .done (.error (.NetworkError (.transport m)))⟩ := rfl

theorem pollLoop_success (req : List (String × String)) (I : Nat)
    (s : Step) (tok : AuthenticationResponse) (rest : List Step)
    (h : s.successToken = some tok) :
    pollLoop req I (s :: rest) = ⟨[req], [], .done (.ok tok)⟩ := by
  cases s with
  | err m => simp [Step.successToken] at h
  | ok st raw parsed =>
    simp only [Step.successToken] at h
    split at h
    · simp [pollLoop, *]
    · simp at h

theorem pollLoop_success_decode_failure (req : List (String × String))
    (I : Nat) (st : Nat) (raw : String) (parsed : Option Json)
    (rest : List Step) (hst : isSuccessStatus st = true)
    (hp : parsed.bind parseAuthenticationResponse = none) :
    pollLoop req I (.ok st raw parsed :: rest) =
      ⟨[req], [], .done (.error (.NetworkError (.decode raw)))⟩ := by
  simp [pollLoop, hst, hp]

theorem pollLoop_unclassified (req : List (String × String)) (I : Nat)
    (st : Nat) (raw : String) (parsed : Option Json) (rest : List Step)
    (hst : isSuccessStatus st = false)
    (hp : parsed.bind parseDeviceCodeAhenticationError = none) :
    pollLoop req I (.ok st raw parsed :: rest) =
      ⟨[req], [], .done (.error (.UnexpectedResponse (.decodeErrorOf raw)))⟩ := by
  simp [pollLoop, hst, hp]

theorem pollLoop_rejected (req : List (String × String)) (I : Nat)
    (st : Nat) (raw : String) (parsed : Option Json)
    (env : DeviceCodeAhenticationError) (rest : List Step)
    (hst : isSuccessStatus st = false)
    (hp : parsed.bind parseDeviceCodeAhenticationError = some env)
    (he : env.error ≠ .authorizationPending) :
    pollLoop req I (.ok st raw parsed :: rest) =
      ⟨[req], [], .done (.error .AuthenticationFailed)⟩ := by
  simp [pollLoop, hst, hp, he]

theorem pollLoop_pending_cons (req : List (String × String)) (I : Nat)
    (s : Step) (rest : List Step) (h : s.pending = true) :
    pollLoop req I (s :: rest) =
      ⟨req :: (pollLoop req I rest).requests,
        I :: (pollLoop req I rest).sleeps,
        (pollLoop req I rest).result⟩ := by
  cases s with
  | err m => simp [Step.pending] at h
  | ok st raw parsed =>
    simp only [Step.pending] at h
    split at h
    · simp at h
    · rename_i hst
      simp only [Bool.not_eq_true] at hst
      cases hp : parsed.bind parseDeviceCodeAhenticationError with
      | none => rw [hp] at h; simp at h
      | some env =>
        rw [hp] at h
        simp only [decide_eq_true_eq] at h
        simp [pollLoop, hst, hp, h]

theorem pollLoop_nonpending (req : List (String × String)) (I : Nat)
    (s : Step) (rest : List Step) (h : s.pending = false) :
    ∃ r, pollLoop req I (s :: rest) = ⟨[req], [], .done r⟩ := by
  cases s with
  | err m => exact ⟨_, pollLoop_transport req I m rest⟩
  | ok st raw parsed =>
    simp only [Step.pending] at h
    split at h
    · rename_i hst
      cases hp : parsed.bind parseAuthenticationResponse with
      | none => exact ⟨_, pollLoop_success_decode_failure req I st raw parsed rest hst hp⟩
      | some tok =>
        refine ⟨.ok tok, ?_⟩
        simp [pollLoop, hst, hp]
    · rename_i hst
      simp only [Bool.not_eq_true] at hst
      cases hp : parsed.bind parseDeviceCodeAhenticationError with
      | none => exact ⟨_, pollLoop_unclassified req I st raw parsed rest hst hp⟩
      | some env =>
        rw [hp] at h
        simp only [decide_eq_false_iff_not] at h
        exact ⟨_, pollLoop_rejected req I st raw parsed env rest hst hp h⟩


theorem authenticate_eq_pollLoop (dc : Step) (polls : List Step)
    (ch : DeviceCodeAuthenticationResponse) (h : dc.challengeOf = some ch) :
    authenticate_with_device_code dc polls =
      pollLoop (AuthenticationRequest.ofChallenge ch).formPairs
        ch.interval polls := by
  cases dc with
  | err m => simp [Step.challengeOf] at h
  | ok st raw parsed =>
    simp only [Step.challengeOf] at h
    split at h
    · simp [authenticate_with_device_code, *]
    · simp at h

theorem pollLoop_pending_then_success (req : List (String × String))
    (I : Nat) (pend : List Step) (fin : Step) (tok : AuthenticationResponse)
    (hp : ∀ s ∈ pend, s.pending = true) (hf : fin.successToken = some tok) :
    pollLoop req I (pend ++ [fin]) =
      ⟨List.replicate (pend.length + 1) req, List.replicate pend.length I,
        .done (.ok tok)⟩ := by
  induction pend with
  | nil => simpa using pollLoop_success req I fin tok [] hf
  | cons s rest ih =>
    have hs : s.pending = true := hp s (List.mem_cons_self s rest)
    have hrest : ∀ x ∈ rest, Step.pending x = true :=
      fun x hx => hp x (List.mem_cons_of_mem s hx)
    rw [List.cons_append, pollLoop_pending_cons req I s (rest ++ [fin]) hs,
      ih hrest]
    simp [List.replicate_succ]

theorem pollLoop_requests_mem (req : List (String × String)) (I : Nat)
    (steps : List Step) :
    ∀ r ∈ (pollLoop req I steps).requests, r = req := by
  induction steps with
  | nil => simp [pollLoop]
  | cons s rest ih =>
    intro r hr
    cases hs : s.pending with
    | true =>
      rw [pollLoop_pending_cons req I s rest hs] at hr
      rw [List.mem_cons] at hr
      rcases hr with hr | hr
      · exact hr
      · exact ih r hr
    | false =>
      obtain ⟨res, hres⟩ := pollLoop_nonpending req I s rest hs
      rw [hres] at hr
      simpa using hr

theorem pollLoop_requests_length (req : List (String × String)) (I : Nat)
    (steps : List Step) :
    (pollLoop req I steps).requests.length =
      min ((steps.takeWhile Step.pending).length + 1) steps.length := by
  induction steps with
  | nil => simp [pollLoop]
  | cons s rest ih =>
    cases hs : s.pending with
    | true =>
      rw [pollLoop_pending_cons req I s rest hs]
      simp [List.takeWhile_cons, hs, ih]
      omega
    | false =>
      obtain ⟨res, hres⟩ := pollLoop_nonpending req I s rest hs
      rw [hres]
      simp [List.takeWhile_cons, hs]


theorem parseAuthenticationResponse_none_of_missing (j : Json) (k : String)
    (hk : k ∈ (["token_type", "scope", "expires_in", "ext_expires_in",
      "access_token", "refresh_token"] : List String))
    (h : j.getField k = none) : parseAuthenticationResponse j = none := by
  unfold parseAuthenticationResponse
  split
  · fin_cases hk <;> simp_all
  · rfl

theorem parseDeviceCodeAhenticationError_none_of_missing (j : Json)
    (k : String)
    (hk : k ∈ (["error", "error_description", "error_codes", "timestamp",
      "trace_id", "correlation_id"] : List String))
    (h : j.getField k = none) : parseDeviceCodeAhenticationError j = none := by
  unfold parseDeviceCodeAhenticationError
  split
  · fin_cases hk <;> simp_all
  · rfl

theorem parseDeviceCodeAhenticationError_none_of_unknown_code (j : Json)
    (h : (j.getField "error").bind parseAuthorizationError = none) :
    parseDeviceCodeAhenticationError j = none := by
  unfold parseDeviceCodeAhenticationError
  split
  · simp_all
  · rfl

theorem parseAuthenticationResponse_fields (j : Json)
    (t : AuthenticationResponse) (h : parseAuthenticationResponse j = some t) :
    (j.getField "token_type").isSome ∧ (j.getField "scope").isSome ∧
      (j.getField "expires_in").isSome ∧
      (j.getField "ext_expires_in").isSome ∧
      (j.getField "access_token").isSome ∧
      (j.getField "refresh_token").isSome := by
  refine ⟨?_, ?_, ?_, ?_, ?_, ?_⟩
  · cases hx : j.getField "token_type" with
    | none =>
      rw [parseAuthenticationResponse_none_of_missing j "token_type"
        (by simp) hx] at h
      exact Option.noConfusion h
    | some v => simp [hx]
  · cases hx : j.getField "scope" with
    | none =>
      rw [parseAuthenticationResponse_none_of_missing j "scope"
        (by simp) hx] at h
      exact Option.noConfusion h
    | some v => simp [hx]
  · cases hx : j.getField "expires_in" with
    | none =>
      rw [parseAuthenticationResponse_none_of_missing j "expires_in"
        (by simp) hx] at h
      exact Option.noConfusion h
    | some v => simp [hx]
  · cases hx : j.getField "ext_expires_in" with
    | none =>
      rw [parseAuthenticationResponse_none_of_missing j "ext_expires_in"
        (by simp) hx] at h
      exact Option.noConfusion h
    | some v => simp [hx]
  · cases hx : j.getField "access_token" with
    | none =>
      rw [parseAuthenticationResponse_none_of_missing j "access_token"
        (by simp) hx] at h
      exact Option.noConfusion h
    | some v => simp [hx]
  · cases hx : j.getField "refresh_token" with
    | none =>
      rw [parseAuthenticationResponse_none_of_missing j "refresh_token"
        (by simp) hx] at h
      exact Option.noConfusion h
    | some v => simp [hx]

theorem parseDeviceCodeAhenticationError_fields (j : Json)
    (env : DeviceCodeAhenticationError)
    (h : parseDeviceCodeAhenticationError j = some env) :
    (j.getField "error").isSome ∧ (j.getField "error_description").isSome ∧
      (j.getField "error_codes").isSome ∧ (j.getField "timestamp").isSome ∧
      (j.getField "trace_id").isSome ∧
      (j.getField "correlation_id").isSome := by
  refine ⟨?_, ?_, ?_, ?_, ?_, ?_⟩
  · cases hx : j.getField "error" with
    | none =>
      rw [parseDeviceCodeAhenticationError_none_of_missing j "error"
        (by simp) hx] at h
      exact Option.noConfusion h
    | some v => simp [hx]
  · cases hx : j.getField "error_description" with
    | none =>
      rw [parseDeviceCodeAhenticationError_none_of_missing j
        "error_description" (by simp) hx] at h
      exact Option.noConfusion h
    | some v => simp [hx]
  · cases hx : j.getField "error_codes" with
    | none =>
      rw [parseDeviceCodeAhenticationError_none_of_missing j "error_codes"
        (by simp) hx] at h
      exact Option.noConfusion h
    | some v => simp [hx]
  · cases hx : j.getField "timestamp" with
    | none =>
      rw [parseDeviceCodeAhenticationError_none_of_missing j "timestamp"
        (by simp) hx] at h
      exact Option.noConfusion h
    | some v => simp [hx]
  · cases hx : j.getField "trace_id" with
    | none =>
      rw [parseDeviceCodeAhenticationError_none_of_missing j "trace_id"
        (by simp) hx] at h
      exact Option.noConfusion h
    | some v => simp [hx]
  · cases hx : j.getField "correlation_id" with
    | none =>
      rw [parseDeviceCodeAhenticationError_none_of_missing j "correlation_id"
        (by simp) hx] at h
      exact Option.noConfusion h
    | some v => simp [hx]

theorem parse_challengeJson (c : DeviceCodeAuthenticationResponse) :
    parseDeviceCodeAuthenticationResponse (challengeJson c) = some c := rfl

theorem authenticate_requests_mem (dc : Step) (polls : List Step)
    (ch : DeviceCodeAuthenticationResponse) (h : dc.challengeOf = some ch) :
    ∀ r ∈ (authenticate_with_device_code dc polls).requests,
      r = (AuthenticationRequest.ofChallenge ch).formPairs := by
  rw [authenticate_eq_pollLoop dc polls ch h]
  exact pollLoop_requests_mem _ _ polls


/-- C1: for every execution in which the transport classifies as
`authorization_pending` exactly N times and then returns a 2xx success,
the flow performs exactly N+1 token poll requests, sleeps exactly N times
for the challenge's `interval` seconds each (one sleep after each Pending,
none after the final response), and returns the token record parsed from
the final response. -/
theorem C1_pending_then_success (dc : Step)
    (ch : DeviceCodeAuthenticationResponse) (pend : List Step) (fin : Step)
    (tok : AuthenticationResponse) (hch : dc.challengeOf = some ch)
    (hp : ∀ s ∈ pend, s.pending = true) (hf : fin.successToken = some tok) :
    (authenticate_with_device_code dc (pend ++ [fin])).requests.length =
        pend.length + 1 ∧
      (authenticate_with_device_code dc (pend ++ [fin])).sleeps =
        List.replicate pend.length ch.interval ∧
      (authenticate_with_device_code dc (pend ++ [fin])).result =
        .done (.ok tok) := by
  rw [authenticate_eq_pollLoop dc (pend ++ [fin]) ch hch,
    pollLoop_pending_then_success _ ch.interval pend fin tok hp hf]
  simp

/-- Witness for C1 at N = 2: two pending responses, then success. -/
theorem C1_pending_then_success_witness :
    (authenticate_with_device_code dcStepC
        ([pendingStepC, pendingStepC] ++ [successStepC])).requests.length =
        2 + 1 ∧
      (authenticate_with_device_code dcStepC
          ([pendingStepC, pendingStepC] ++ [successStepC])).sleeps =
        List.replicate 2 challengeC.interval ∧
      (authenticate_with_device_code dcStepC
          ([pendingStepC, pendingStepC] ++ [successStepC])).result =
        .done (.ok tokenC) := by
  have h := C1_pending_then_success dcStepC challengeC
    [pendingStepC, pendingStepC] successStepC tokenC (by decide) (by decide)
    (by decide)
  simpa using h

/-- C2 counterexample: with `interval = 1` and `expires_in = 1`
(`challengeC`), a transcript of 3 Pending responses then a success drives
the flow to 4 poll attempts, exceeding ceil(E / I) = 1: the code enforces
no deadline. -/
theorem C2_counterexample :
    (authenticate_with_device_code dcStepC
        [pendingStepC, pendingStepC, pendingStepC, successStepC]).requests.length = 4 ∧
      ¬(4 ≤ (challengeC.expires_in + challengeC.interval - 1) /
          challengeC.interval) := by
  decide

/-- C2 (amended): the code enforces no client-side deadline: for every B,
a transcript of B Pending responses followed by a success yields exactly
B+1 poll attempts, regardless of the challenge's `expires_in`; polling
stops only when the provider returns a non-Pending response. -/
theorem C2_no_deadline (dc : Step) (ch : DeviceCodeAuthenticationResponse)
    (p fin : Step) (tok : AuthenticationResponse) (B : Nat)
    (hch : dc.challengeOf = some ch) (hp : p.pending = true)
    (hf : fin.successToken = some tok) :
    (authenticate_with_device_code dc
        (List.replicate B p ++ [fin])).requests.length = B + 1 := by
  rw [authenticate_eq_pollLoop dc _ ch hch,
    pollLoop_pending_then_success _ ch.interval (List.replicate B p) fin tok
      (fun s hs => by rw [List.eq_of_mem_replicate hs]; exact hp) hf]
  simp

/-- Witness for C2 (amended) at B = 3. -/
theorem C2_no_deadline_witness :
    (authenticate_with_device_code dcStepC
        (List.replicate 3 pendingStepC ++ [successStepC])).requests.length =
      3 + 1 :=
  C2_no_deadline dcStepC challengeC pendingStepC successStepC tokenC 3
    (by decide) (by decide) (by decide)

/-- C3 (amended): for the device-code request, a transport failure yields
`NetworkError` with the underlying cause, a non-2xx status yields
`UnexpectedResponse` carrying the raw body, and a 2xx body that fails to
decode as the challenge propagates the reqwest decode error as
`NetworkError` (not as `UnexpectedResponse` with the raw body). -/
theorem C3_device_code_request_errors :
    (∀ m polls, (authenticate_with_device_code (.err m) polls).result =
        .done (.error (.NetworkError (.transport m)))) ∧
      (∀ st raw parsed polls, isSuccessStatus st = false →
        (authenticate_with_device_code (.ok st raw parsed) polls).result =
          .done (.error (.UnexpectedResponse (.rawText raw)))) ∧
      (∀ st raw parsed polls, isSuccessStatus st = true →
        parsed.bind parseDeviceCodeAuthenticationResponse = none →
        (authenticate_with_device_code (.ok st raw parsed) polls).result =
          .done (.error (.NetworkError (.decode raw)))) := by
  refine ⟨fun m polls => rfl, ?_, ?_⟩
  · intro st raw parsed polls h
    simp [authenticate_with_device_code, h]
  · intro st raw parsed polls h1 h2
    simp [authenticate_with_device_code, h1, h2]

/-- Witness for C3: a transport failure, a 404, and an undecodable 2xx. -/
theorem C3_device_code_request_errors_witness :
    (authenticate_with_device_code (.err "dns failure") []).result =
        .done (.error (.NetworkError (.transport "dns failure"))) ∧
      (authenticate_with_device_code (.ok 404 "bad request" none) []).result =
        .done (.error (.UnexpectedResponse (.rawText "bad request"))) ∧
      (authenticate_with_device_code (.ok 200 "garbage" none) []).result =
        .done (.error (.NetworkError (.decode "garbage"))) :=
  ⟨C3_device_code_request_errors.1 "dns failure" [],
    C3_device_code_request_errors.2.1 404 "bad request" none [] (by decide),
    C3_device_code_request_errors.2.2 200 "garbage" none [] (by decide) rfl⟩

/-- C3 counterexample: a 2xx device-code response whose body fails to
parse yields `NetworkError` carrying the decode failure, not
`UnexpectedResponse` carrying the raw body as the claim states. -/
theorem C3_counterexample :
    (authenticate_with_device_code (.ok 200 "garbage" none) []).result =
        .done (.error (.NetworkError (.decode "garbage"))) ∧
      (authenticate_with_device_code (.ok 200 "garbage" none) []).result ≠
        .done (.error (.UnexpectedResponse (.rawText "garbage"))) := by
  decide


/-- C4 (amended): a poll response whose `error` field is not one of the
four known codes fails envelope decoding, and any non-2xx poll response
whose body does not decode as the error envelope terminates the flow
immediately with `UnexpectedResponse` carrying the decode-error message
(not the raw text); it is never classified as Pending and no further poll
request is made. -/
theorem C4_unclassified_terminal (dc : Step)
    (ch : DeviceCodeAuthenticationResponse) (st : Nat) (raw : String)
    (parsed : Option Json) (rest : List Step)
    (hch : dc.challengeOf = some ch) (hst : isSuccessStatus st = false)
    (hp : parsed.bind parseDeviceCodeAhenticationError = none) :
    (∀ j : Json, (j.getField "error").bind parseAuthorizationError = none →
        parseDeviceCodeAhenticationError j = none) ∧
      (authenticate_with_device_code dc
          (.ok st raw parsed :: rest)).requests.length = 1 ∧
      (authenticate_with_device_code dc (.ok st raw parsed :: rest)).result =
        .done (.error (.UnexpectedResponse (.decodeErrorOf raw))) ∧
      (Step.ok st raw parsed).pending = false := by
  rw [authenticate_eq_pollLoop dc _ ch hch,
    pollLoop_unclassified _ ch.interval st raw parsed rest hst hp]
  refine ⟨parseDeviceCodeAhenticationError_none_of_unknown_code, rfl, rfl, ?_⟩
  simp [Step.pending, hst, hp]

/-- Witness for C4: the unknown code `slow_down`, with a further event
available in the transcript that is never consumed. -/
theorem C4_unclassified_terminal_witness :
    (∀ j : Json, (j.getField "error").bind parseAuthorizationError = none →
        parseDeviceCodeAhenticationError j = none) ∧
      (authenticate_with_device_code dcStepC
          (.ok 400 "rawslowdown" (some slowDownBodyC) ::
            [pendingStepC])).requests.length = 1 ∧
      (authenticate_with_device_code dcStepC
          (.ok 400 "rawslowdown" (some slowDownBodyC) ::
            [pendingStepC])).result =
        .done (.error (.UnexpectedResponse (.decodeErrorOf "rawslowdown"))) ∧
      (Step.ok 400 "rawslowdown" (some slowDownBodyC)).pending = false :=
  C4_unclassified_terminal dcStepC challengeC 400 "rawslowdown"
    (some slowDownBodyC) [pendingStepC] (by decide) (by decide) (by decide)

/-- C4 counterexample: for the unknown code `slow_down` the flow does
terminate with `UnexpectedResponse`, but its payload is the decode-error
message, not the raw response text as the claim states. -/
theorem C4_counterexample :
    (authenticate_with_device_code dcStepC [slowDownStepC]).result =
        .done (.error (.UnexpectedResponse (.decodeErrorOf "rawslowdown"))) ∧
      (authenticate_with_device_code dcStepC [slowDownStepC]).result ≠
        .done (.error (.UnexpectedResponse (.rawText "rawslowdown"))) := by
  decide

/-- C5: a Pending-classified response is the sole condition under which
another poll request is sent: the number of poll requests equals the
length of the longest prefix of Pending-classified responses plus one
(capped by the transcript length), and whenever the first poll response
is not Pending-classified the flow makes exactly one request and reaches
a terminal result. -/
theorem C5_pending_sole_loop (dc : Step)
    (ch : DeviceCodeAuthenticationResponse) (polls : List Step)
    (hch : dc.challengeOf = some ch) :
    (authenticate_with_device_code dc polls).requests.length =
        min ((polls.takeWhile Step.pending).length + 1) polls.length ∧
      ∀ s rest, polls = s :: rest → s.pending = false →
        (authenticate_with_device_code dc polls).requests.length = 1 ∧
          ∃ r, (authenticate_with_device_code dc polls).result = .done r := by
  rw [authenticate_eq_pollLoop dc polls ch hch]
  refine ⟨pollLoop_requests_length _ _ polls, ?_⟩
  rintro s rest rfl hs
  obtain ⟨r, hr⟩ := pollLoop_nonpending _ ch.interval s rest hs
  rw [hr]
  exact ⟨rfl, r, rfl⟩

/-- Witness for C5: a declined first poll makes exactly one request and
reaches a terminal result, leaving the rest of the transcript unread. -/
theorem C5_pending_sole_loop_witness :
    (authenticate_with_device_code dcStepC
        [declinedStepC, pendingStepC]).requests.length = 1 ∧
      ∃ r, (authenticate_with_device_code dcStepC
        [declinedStepC, pendingStepC]).result = .done r :=
  (C5_pending_sole_loop dcStepC challengeC [declinedStepC, pendingStepC]
    (by decide)).2 declinedStepC [pendingStepC] rfl (by decide)

/-- C6 (amended): a classified terminal rejection on the first poll (e.g.
`authorization_declined`) terminates the flow after exactly one poll
request, but with the generic payload-free error `AuthenticationFailed`;
Declined, BadVerificationCode and Expired all map to this same value, so
the outcome does not tell the caller which rejection occurred. -/
theorem C6_rejection_generic (dc : Step)
    (ch : DeviceCodeAuthenticationResponse) (st : Nat) (raw : String)
    (parsed : Option Json) (env : DeviceCodeAhenticationError)
    (rest : List Step) (hch : dc.challengeOf = some ch)
    (hst : isSuccessStatus st = false)
    (hp : parsed.bind parseDeviceCodeAhenticationError = some env)
    (he : env.error ≠ .authorizationPending) :
    (authenticate_with_device_code dc
        (.ok st raw parsed :: rest)).requests.length = 1 ∧
      (authenticate_with_device_code dc (.ok st raw parsed :: rest)).result =
        .done (.error .AuthenticationFailed) := by
  rw [authenticate_eq_pollLoop dc _ ch hch,
    pollLoop_rejected _ ch.interval st raw parsed env rest hst hp he]
  exact ⟨rfl, rfl⟩

/-- Witness for C6 (amended): `authorization_declined` on the first poll. -/
theorem C6_rejection_generic_witness :
    (authenticate_with_device_code dcStepC
        (.ok 400 "rawdeclined" (some declinedBodyC) ::
          [pendingStepC])).requests.length = 1 ∧
      (authenticate_with_device_code dcStepC
          (.ok 400 "rawdeclined" (some declinedBodyC) ::
            [pendingStepC])).result =
        .done (.error .AuthenticationFailed) :=
  C6_rejection_generic dcStepC challengeC 400 "rawdeclined"
    (some declinedBodyC)
    ⟨.authorizationDeclined, "declined", [70020], "ts", "tr1", "co1"⟩
    [pendingStepC] (by decide) (by decide) (by decide) (by decide)

/-- C6 counterexample: on `authorization_declined` the flow terminates
after one poll, but the outcome is the generic `AuthenticationFailed`,
identical to the outcome for `expired_token`: no raw body or structured
code reaches the caller to say which rejection occurred. -/
theorem C6_counterexample :
    (authenticate_with_device_code dcStepC [declinedStepC]).requests.length = 1 ∧
      (authenticate_with_device_code dcStepC [declinedStepC]).result =
        .done (.error .AuthenticationFailed) ∧
      (authenticate_with_device_code dcStepC [declinedStepC]).result =
        (authenticate_with_device_code dcStepC [expiredStepC]).result := by
  decide

/-- C7: every token poll request the flow sends is form-encoded from
exactly the fields `client_id`, `code` (the challenge's device_code) and
`grant_type`, with `grant_type` byte-for-byte the fixed device-code grant
string, identically on every poll of a flow. -/
theorem C7_poll_request_fields (dc : Step)
    (ch : DeviceCodeAuthenticationResponse) (polls : List Step)
    (hch : dc.challengeOf = some ch) :
    ∀ r ∈ (authenticate_with_device_code dc polls).requests,
      r = [("client_id", CLIENT_ID), ("code", ch.device_code),
        ("grant_type", "urn:ietf:params:oauth:grant-type:device_code")] := by
  intro r hr
  have h := authenticate_requests_mem dc polls ch hch r hr
  simpa [AuthenticationRequest.ofChallenge, AuthenticationRequest.formPairs,
    grantTypeDeviceCode] using h

/-- Witness for C7: with two pending polls then success, all three poll
requests sent are the same fixed form body. -/
theorem C7_poll_request_fields_witness :
    (authenticate_with_device_code dcStepC
        [pendingStepC, pendingStepC, successStepC]).requests =
      List.replicate 3 [("client_id", CLIENT_ID),
        ("code", challengeC.device_code),
        ("grant_type", "urn:ietf:params:oauth:grant-type:device_code")] := by
  have h := C7_poll_request_fields dcStepC challengeC
    [pendingStepC, pendingStepC, successStepC] (by decide)
  have hlen : (authenticate_with_device_code dcStepC
      [pendingStepC, pendingStepC, successStepC]).requests.length = 3 := by
    decide
  rw [← hlen]
  exact List.eq_replicate_of_mem h


/-- C8: form-encoding the device-code request with client_id "abc" and
scope "X Y" produces the body client_id=abc&scope=X+Y, and decoding any
well-formed `DeviceCodeChallenge` JSON document reproduces the original
values of all six fields exactly. -/
theorem C8_round_trip :
    formEncodeBody (DeviceCodeAuthenticationRequest.formPairs
        ⟨"abc", "X Y"⟩) = "client_id=abc&scope=X+Y" ∧
      ∀ c : DeviceCodeAuthenticationResponse,
        parseDeviceCodeAuthenticationResponse (challengeJson c) = some c :=
  ⟨by decide, fun c => parse_challengeJson c⟩

/-- C9: a 2xx token response is accepted as success only if its body has
all of token_type, scope, expires_in, ext_expires_in, access_token and
refresh_token; only id_token may be absent; and a 2xx poll body lacking
refresh_token is never returned as a successful token record but becomes
an error. -/
theorem C9_strict_token_parse :
    (∀ j t, parseAuthenticationResponse j = some t →
        (j.getField "token_type").isSome ∧ (j.getField "scope").isSome ∧
          (j.getField "expires_in").isSome ∧
          (j.getField "ext_expires_in").isSome ∧
          (j.getField "access_token").isSome ∧
          (j.getField "refresh_token").isSome) ∧
      (∀ tt sc ei xe ac rt, parseAuthenticationResponse (Json.obj
          [("token_type", .str tt), ("scope", .str sc),
            ("expires_in", .num ei), ("ext_expires_in", .num xe),
            ("access_token", .str ac), ("refresh_token", .str rt)]) =
        some ⟨tt, sc, ei, xe, ac, rt, none⟩) ∧
      (∀ dc ch st raw j rest, Step.challengeOf dc = some ch →
        isSuccessStatus st = true → j.getField "refresh_token" = none →
        (authenticate_with_device_code dc
            (.ok st raw (some j) :: rest)).result =
          .done (.error (.NetworkError (.decode raw)))) := by
  refine ⟨parseAuthenticationResponse_fields, fun tt sc ei xe ac rt => rfl, ?_⟩
  intro dc ch st raw j rest hch hst hrt
  have hnone : (some j).bind parseAuthenticationResponse = none := by
    simpa using
      parseAuthenticationResponse_none_of_missing j "refresh_token"
        (by simp) hrt
  rw [authenticate_eq_pollLoop dc _ ch hch,
    pollLoop_success_decode_failure _ ch.interval st raw (some j) rest hst
      hnone]

/-- Witness for C9: the complete token body `tokenBodyC`, and a 2xx body
lacking refresh_token that becomes an error. -/
theorem C9_strict_token_parse_witness :
    ((tokenBodyC.getField "token_type").isSome ∧
        (tokenBodyC.getField "scope").isSome ∧
        (tokenBodyC.getField "expires_in").isSome ∧
        (tokenBodyC.getField "ext_expires_in").isSome ∧
        (tokenBodyC.getField "access_token").isSome ∧
        (tokenBodyC.getField "refresh_token").isSome) ∧
      (authenticate_with_device_code dcStepC
          (.ok 200 "rawnorefresh" (some noRefreshBodyC) :: [])).result =
        .done (.error (.NetworkError (.decode "rawnorefresh"))) :=
  ⟨C9_strict_token_parse.1 tokenBodyC tokenC (by decide),
    C9_strict_token_parse.2.2 dcStepC challengeC 200 "rawnorefresh"
      noRefreshBodyC [] (by decide) (by decide) rfl⟩

/-- C10: a non-2xx poll response is classified only when the entire error
envelope parses: envelope parse success implies all six fields are
present, and if any metadata field is missing the response is treated as
`UnexpectedResponse` and terminates the flow after that one poll attempt,
even when its `error` field is the known code authorization_pending. -/
theorem C10_strict_envelope_parse :
    (∀ j env, parseDeviceCodeAhenticationError j = some env →
        (j.getField "error").isSome ∧
          (j.getField "error_description").isSome ∧
          (j.getField "error_codes").isSome ∧
          (j.getField "timestamp").isSome ∧
          (j.getField "trace_id").isSome ∧
          (j.getField "correlation_id").isSome) ∧
      (∀ dc ch st raw j rest, Step.challengeOf dc = some ch →
        isSuccessStatus st = false →
        j.getField "error" = some (.str "authorization_pending") →
        (j.getField "error_description" = none ∨
          j.getField "error_codes" = none ∨
          j.getField "timestamp" = none ∨ j.getField "trace_id" = none ∨
          j.getField "correlation_id" = none) →
        (authenticate_with_device_code dc
            (.ok st raw (some j) :: rest)).requests.length = 1 ∧
          (authenticate_with_device_code dc
              (.ok st raw (some j) :: rest)).result =
            .done (.error (.UnexpectedResponse (.decodeErrorOf raw)))) := by
  refine ⟨parseDeviceCodeAhenticationError_fields, ?_⟩
  intro dc ch st raw j rest hch hst _ hmiss
  have hnone : (some j).bind parseDeviceCodeAhenticationError = none := by
    rcases hmiss with h | h | h | h | h <;>
      simpa using
        parseDeviceCodeAhenticationError_none_of_missing j _ (by simp) h
  rw [authenticate_eq_pollLoop dc _ ch hch,
    pollLoop_unclassified _ ch.interval st raw (some j) rest hst hnone]
  exact ⟨rfl, rfl⟩

/-- Witness for C10: a bare `authorization_pending` envelope with no
metadata terminates the flow as `UnexpectedResponse` after one poll. -/
theorem C10_strict_envelope_parse_witness :
    ((pendingBodyC.getField "error").isSome ∧
        (pendingBodyC.getField "error_description").isSome ∧
        (pendingBodyC.getField "error_codes").isSome ∧
        (pendingBodyC.getField "timestamp").isSome ∧
        (pendingBodyC.getField "trace_id").isSome ∧
        (pendingBodyC.getField "correlation_id").isSome) ∧
      (authenticate_with_device_code dcStepC
          (.ok 400 "rawbare" (some pendingNoMetaBodyC) :: [])).requests.length = 1 ∧
      (authenticate_with_device_code dcStepC
          (.ok 400 "rawbare" (some pendingNoMetaBodyC) :: [])).result =
        .done (.error (.UnexpectedResponse (.decodeErrorOf "rawbare"))) :=
  ⟨C10_strict_envelope_parse.1 pendingBodyC
      ⟨.authorizationPending, "pending", [70016], "ts", "tr0", "co0"⟩
      (by decide),
    (C10_strict_envelope_parse.2 dcStepC challengeC 400 "rawbare"
        pendingNoMetaBodyC [] (by decide) (by decide) rfl
        (Or.inl rfl)).1,
    (C10_strict_envelope_parse.2 dcStepC challengeC 400 "rawbare"
        pendingNoMetaBodyC [] (by decide) (by decide) rfl
        (Or.inl rfl)).2⟩

end Mstodo